import Mathlib

/-!
Shallow embedding of the DaisyUI widget and template components of this
repository: `FileWidget`, `TextareaWidget`, `SelectWidget`, `TitleField` and
`BaseInputTemplate`.

Event handlers are modelled as pure functions from the data carried by the
DOM event (together with the props the handler closes over) to the list of
externally observable effects they perform: invocations of the host-supplied
callbacks (`onChange`, `onFocus`, `onBlur`) and console logging.  Internal
React state updates (`setIsLoading`) are not externally observable and are
instead reflected by the explicit state parameter of `FileWidget.render`.
Renders are modelled as pure functions from props (and, for `FileWidget`,
its internal `isLoading` state) to a markup tree.
-/

namespace DaisyUI

/-- Model of the JavaScript values exchanged with the host library.  Objects
other than arrays are modelled opaquely by a tag. -/
inductive JSValue where
  | undef
  | null
  | bool (b : Bool)
  | num (n : Int)
  | str (s : String)
  | arr (elems : List JSValue)
  | obj (tag : String)

/-- JavaScript truthiness of a modelled value: `undefined`, `null`, `false`,
`0` and the empty string are falsy; arrays and objects are always truthy. -/
def JSValue.truthy : JSValue → Bool
  | .undef => false
  | .null => false
  | .bool b => b
  | .num n => n != 0
  | .str s => s != ""
  | .arr _ => true
  | .obj _ => true

/-- JavaScript `typeof v` being the string "object": true for objects,
arrays and `null`. -/
def JSValue.isObjectType : JSValue → Bool
  | .null => true
  | .arr _ => true
  | .obj _ => true
  | _ => false

/-- JavaScript `a || b` on modelled values: `a` when truthy, else `b`. -/
def jsOr (a b : JSValue) : JSValue :=
  if a.truthy then a else b

/-- The externally observable effects a component handler can perform:
invoking one of the host-supplied callbacks, or logging to the console.
No network, file-system or process-level effect is available to handlers. -/
inductive Effect where
  | callOnChange (value : JSValue)
  | callOnFocus (id : String) (value : JSValue)
  | callOnBlur (id : String) (value : JSValue)
  | consoleError (message : String)

/-- Whether an effect is an `onChange` invocation. -/
def Effect.isOnChange : Effect → Bool
  | .callOnChange _ => true
  | _ => false

/-- Whether an effect is an `onFocus` invocation. -/
def Effect.isOnFocus : Effect → Bool
  | .callOnFocus _ _ => true
  | _ => false

/-- Whether an effect is an `onBlur` invocation. -/
def Effect.isOnBlur : Effect → Bool
  | .callOnBlur _ _ => true
  | _ => false

/-- Whether an effect is a console-error log. -/
def Effect.isConsoleError : Effect → Bool
  | .consoleError _ => true
  | _ => false

/-- A simplified markup tree: an element with tag, attributes and children,
or a text node. -/
inductive Html where
  | element (tag : String) (attrs : List (String × String)) (children : List Html)
  | textNode (s : String)

/-- UTF-8 byte length of a string, as computed by a `TextEncoder`. -/
def utf8ByteLength (s : String) : Nat :=
  String.utf8ByteSize s

namespace FileWidget

/-- Outcome of one `FileReader.readAsDataURL` read: resolution with the
data-URL string, or rejection with an error. -/
abbrev ReadResult := Except String String

/-- Whether a read rejected. -/
def readRejected : ReadResult → Bool
  | .error _ => true
  | .ok _ => false

/-- The `Promise.all` aggregation of the per-file read promises, with the
reads settling in list order: it resolves with all data URLs in order, or
rejects with the first rejection. -/
def promiseAll : List ReadResult → Except String (List String)
  | [] => .ok []
  | .error e :: _ => .error e
  | .ok v :: rs =>
    match promiseAll rs with
    | .ok vs => .ok (v :: vs)
    | .error e => .error e

/-- The observable effects of one change event of `FileWidget`, given
`isMulti` (the value of `schema.type === "array" || Boolean(options.multiple)`)
and the event target's file list (`none` models a null `FileList`, on which
the handler returns immediately), where each selected file's read settles as
recorded in the list.  On aggregate success the handler calls `onChange` with
the array of data URLs in multiple mode, and with `dataUrls[0] || null` in
single mode; on aggregate failure it logs the error and calls no callback. -/
def handleChange (isMulti : Bool) (files : Option (List ReadResult)) : List Effect :=
  match files with
  | none => []
  | some fileList =>
    match promiseAll fileList with
    | .ok dataUrls =>
      if isMulti then
        [.callOnChange (.arr (dataUrls.map JSValue.str))]
      else
        [.callOnChange (jsOr
          (match dataUrls.head? with
           | some u => .str u
           | none => .undef)
          .null)]
    | .error e => [.consoleError e]

/-- The observable effects of one focus event of `FileWidget`: when an
`onFocus` callback was supplied it is invoked with the widget id and the
event target's file list (or `null`). -/
def handleFocus (hasOnFocus : Bool) (id : String) (files : Option (List JSValue)) : List Effect :=
  if hasOnFocus then
    [.callOnFocus id
      (match files with
       | some fs => .arr fs
       | none => .null)]
  else []

/-- The observable effects of one blur event of `FileWidget`: when an
`onBlur` callback was supplied it is invoked with the widget id and the
event target's file list (or `null`). -/
def handleBlur (hasOnBlur : Bool) (id : String) (files : Option (List JSValue)) : List Effect :=
  if hasOnBlur then
    [.callOnBlur id
      (match files with
       | some fs => .arr fs
       | none => .null)]
  else []

/-- One event in the asynchronous life of a change event: a per-file read
promise settling, or an observable effect of the `Promise.all` continuation
(which the event loop runs only after every constituent promise settled). -/
inductive TraceEvent where
  | readSettled (result : ReadResult)
  | effect (e : Effect)

/-- Whether a trace event is an `onChange` invocation. -/
def TraceEvent.isOnChangeEvent : TraceEvent → Bool
  | .effect (.callOnChange _) => true
  | _ => false

/-- The temporal trace of one change event: every per-file read settles,
then the aggregated continuation performs its observable effects. -/
def changeTrace (isMulti : Bool) (fileList : List ReadResult) : List TraceEvent :=
  fileList.map .readSettled ++ (handleChange isMulti (some fileList)).map .effect

end FileWidget

/-- The props `FileWidget.render` reads, as supplied by the host. -/
structure FileWidgetProps where
  id : String
  required : Bool
  disabled : Bool
  readonly : Bool
  schemaTypeIsArray : Bool
  optionsMultiple : Bool
  accept : Option String

/-- The markup `FileWidget` renders: a wrapper div holding the file input —
disabled when the props say so or while loading — and, while the internal
`isLoading` state is set, a progress indicator. -/
def FileWidget.render (p : FileWidgetProps) (isLoading : Bool) : Html :=
  Html.element "div" [("className", "relative")]
    ([Html.element "input"
        ([("id", p.id),
          ("type", "file"),
          ("className", "file-input w-full"),
          ("required", toString p.required),
          ("disabled", toString (p.disabled || p.readonly || isLoading)),
          ("multiple", toString (p.schemaTypeIsArray || p.optionsMultiple))] ++
         (match p.accept with
          | some a => [("accept", a)]
          | none => []))
        []] ++
     (if isLoading then
        [Html.element "div" [("className", "absolute bottom-0 left-0 right-0 leading-0")]
          [Html.element "progress" [("className", "progress w-full h-1")] []]]
      else []))

namespace TextareaWidget

/-- The observable effects of one change event of `TextareaWidget`, given
`options.maxByteLength` (a number or absent) and the event target's value:
when `maxByteLength` is truthy and the new value's UTF-8 byte length exceeds
it the handler returns without effect; otherwise it calls `onChange` with
the new value. -/
def handleChange (maxByteLength : Option Nat) (newValue : String) : List Effect :=
  match maxByteLength with
  | some m =>
    if m != 0 && utf8ByteLength newValue > m then []
    else [.callOnChange (.str newValue)]
  | none => [.callOnChange (.str newValue)]

/-- The observable effects of one focus event of `TextareaWidget`. -/
def handleFocus (hasOnFocus : Bool) (id : String) (value : String) : List Effect :=
  if hasOnFocus then [.callOnFocus id (.str value)] else []

/-- The observable effects of one blur event of `TextareaWidget`. -/
def handleBlur (hasOnBlur : Bool) (id : String) (value : String) : List Effect :=
  if hasOnBlur then [.callOnBlur id (.str value)] else []

end TextareaWidget

namespace BaseInputTemplate

/-- The observable effects of one change event of `BaseInputTemplate`: the
same `maxByteLength` guard as `TextareaWidget`, and on a non-dropped change a
single `onChange` invocation with `options.emptyValue` substituted when the
new value is the empty string. -/
def onChangeHandler (maxByteLength : Option Nat) (emptyValue : JSValue) (newValue : String) : List Effect :=
  match maxByteLength with
  | some m =>
    if m != 0 && utf8ByteLength newValue > m then []
    else [.callOnChange (if newValue = "" then emptyValue else .str newValue)]
  | none => [.callOnChange (if newValue = "" then emptyValue else .str newValue)]

/-- The observable effects of one blur event of `BaseInputTemplate`. -/
def onBlurHandler (hasOnBlur : Bool) (id : String) (value : String) : List Effect :=
  if hasOnBlur then [.callOnBlur id (.str value)] else []

/-- The observable effects of one focus event of `BaseInputTemplate`. -/
def onFocusHandler (hasOnFocus : Bool) (id : String) (value : String) : List Effect :=
  if hasOnFocus then [.callOnFocus id (.str value)] else []

end BaseInputTemplate

/-- One entry of `options.enumOptions`: a label and a value. -/
structure EnumOption where
  label : String
  value : JSValue

/-- JavaScript `Number(s)` restricted to the index strings the rendered select
options carry: the empty string converts to `0`, a decimal digit string to
its value, and anything else to `NaN`, modelled as `none`. -/
def jsStringToNat (s : String) : Option Nat :=
  if s.data.all Char.isDigit then
    some (s.data.foldl (fun n c => n * 10 + (c.toNat - 48)) 0)
  else none

/-- JavaScript `String(n)` applied to the result of such a conversion. -/
def jsNumberToString : Option Nat → String
  | some n => toString n
  | none => "NaN"

/-- Modelled from the spec: the host-library utility `enumOptionsValueForIndex`
of the external form-rendering library — not part of this repository — to
which the spec says option value/index mapping and empty-value handling are
delegated.  It converts the index string to a number (the empty string
converts to `0`), returns the `value` of the option at that index (enum
options are objects, hence truthy), and the supplied `emptyValue` when there
is no option at that index. -/
def enumOptionsValueForIndex (valueIndex : String) (allEnumOptions : List EnumOption)
    (emptyValue : JSValue) : JSValue :=
  match jsStringToNat valueIndex with
  | some i =>
    match allEnumOptions[i]? with
    | some o => o.value
    | none => emptyValue
  | none => emptyValue

namespace SelectWidget

/-- The `isEnumeratedObject` flag of `SelectWidget`: `enumOptions` is present,
its first entry's value is truthy, and that value is of object type. -/
def isEnumeratedObject (enumOptions : Option (List EnumOption)) : Bool :=
  match enumOptions with
  | none => false
  | some opts =>
    match opts.head? with
    | some o => o.value.truthy && o.value.isObjectType
    | none => false

/-- The value the single-select branch of `SelectWidget.handleChange` passes
to `onChange` for the event's index string: the configured `emptyValue` for
the empty string, direct indexing for enumerated-object option lists (a
`TypeError` when the index does not denote an option), and the host-library
mapping otherwise. -/
def valueForSingleIndex (enumOptions : Option (List EnumOption)) (optEmptyVal : JSValue)
    (index : String) : Except String JSValue :=
  if index = "" then .ok optEmptyVal
  else if isEnumeratedObject enumOptions then
    match jsStringToNat index with
    | some i =>
      match (enumOptions.getD [])[i]? with
      | some o => .ok o.value
      | none => .error "TypeError: undefined has no properties"
    | none => .error "TypeError: undefined has no properties"
  else .ok (enumOptionsValueForIndex index (enumOptions.getD []) optEmptyVal)

/-- The value the multiple-select branch of `SelectWidget.handleChange`
computes for one selected option's value string: the option value string is
converted to a number, then either the enumerated-object direct indexing or
the host-library mapping of the number rendered back to a string is used. -/
def valueForMultiIndex (enumOptions : Option (List EnumOption)) (optEmptyVal : JSValue)
    (optionValue : String) : Except String JSValue :=
  if isEnumeratedObject enumOptions then
    match jsStringToNat optionValue with
    | some i =>
      match (enumOptions.getD [])[i]? with
      | some o => .ok o.value
      | none => .error "TypeError: undefined has no properties"
    | none => .error "TypeError: undefined has no properties"
  else .ok (enumOptionsValueForIndex (jsNumberToString (jsStringToNat optionValue))
    (enumOptions.getD []) optEmptyVal)

/-- The observable effects of one change event of `SelectWidget` (or the
`TypeError` it raises): in multiple mode the selected options' value strings
are mapped to option values; in single mode the event value is mapped.  In
either mode a single `onChange` invocation results. -/
def handleChange (multiple : Bool) (enumOptions : Option (List EnumOption))
    (optEmptyVal : JSValue) (eventValue : String) (selectedOptionValues : List String) :
    Except String (List Effect) :=
  if multiple then
    (selectedOptionValues.mapM (valueForMultiIndex enumOptions optEmptyVal)).map
      (fun vals => [Effect.callOnChange (.arr vals)])
  else
    (valueForSingleIndex enumOptions optEmptyVal eventValue).map
      (fun v => [Effect.callOnChange v])

/-- The observable effects of one blur event of `SelectWidget`. -/
def onBlurHandler (hasOnBlur : Bool) (id : String) (value : String) : List Effect :=
  if hasOnBlur then [.callOnBlur id (.str value)] else []

/-- The observable effects of one focus event of `SelectWidget`. -/
def onFocusHandler (hasOnFocus : Bool) (id : String) (value : String) : List Effect :=
  if hasOnFocus then [.callOnFocus id (.str value)] else []

end SelectWidget

/-- All effects of a handler that may raise satisfy the predicate. -/
def allEffectsOk (p : Effect → Bool) : Except String (List Effect) → Bool
  | .ok effects => effects.all p
  | .error _ => true

namespace TitleField

/-- The heading text of `TitleField`: the UI-schema override
`uiOptions.title` when supplied and truthy, else the host-supplied `title`
prop (the code computes `uiOptions.title || title`). -/
def headingText (uiOptionsTitle : Option String) (title : String) : String :=
  match uiOptionsTitle with
  | some t => if t != "" then t else title
  | none => title

/-- The markup `TitleField` renders: a wrapper div with the heading and a
divider. -/
def render (id : String) (uiOptionsTitle : Option String) (title : String) : Html :=
  Html.element "div" [("id", id), ("className", "title-field")]
    [Html.element "h2" [("className", "text-xl font-bold")]
      [Html.textNode (headingText uiOptionsTitle title)],
     Html.element "div" [("className", "divider my-2")] []]

end TitleField

/-! Helper lemmas about the promise aggregation and the change handler. -/

theorem promiseAll_map_ok (urls : List String) :
    FileWidget.promiseAll (urls.map Except.ok) = Except.ok urls := by
  induction urls with
  | nil => rfl
  | cons u us ih => simp [FileWidget.promiseAll, ih]

theorem promiseAll_rejects (fileList : List FileWidget.ReadResult)
    (h : fileList.any FileWidget.readRejected = true) :
    ∃ e, FileWidget.promiseAll fileList = Except.error e := by
  induction fileList with
  | nil => simp at h
  | cons r rs ih =>
    cases r with
    | error e => exact ⟨e, rfl⟩
    | ok v =>
      simp only [List.any_cons, FileWidget.readRejected, Bool.false_or] at h
      obtain ⟨e, he⟩ := ih h
      exact ⟨e, by simp [FileWidget.promiseAll, he]⟩

theorem handleChange_length_le_one (isMulti : Bool)
    (files : Option (List FileWidget.ReadResult)) :
    (FileWidget.handleChange isMulti files).length ≤ 1 := by
  cases files with
  | none => simp [FileWidget.handleChange]
  | some fileList =>
    cases hp : FileWidget.promiseAll fileList with
    | ok dataUrls =>
      cases isMulti <;> simp [FileWidget.handleChange, hp]
    | error e => simp [FileWidget.handleChange, hp]

/-- Claim C1: on a change event of the file widget in multiple mode with N
selected files whose reads all succeed, `onChange` is invoked exactly once,
with an array of exactly N data-URL strings in the order of the selected
files. -/
theorem fileWidget_multi_emits_all_urls_once (urls : List String) :
    FileWidget.handleChange true (some (urls.map Except.ok)) =
      [Effect.callOnChange (JSValue.arr (urls.map JSValue.str))]
    ∧ (urls.map JSValue.str).length = urls.length := by
  refine ⟨?_, by simp⟩
  simp [FileWidget.handleChange, promiseAll_map_ok]

/-- Claim C3: when any selected file's read fails, the file widget logs the
error and invokes `onChange` for no file: the change event produces exactly
one console-error effect and zero `onChange` effects, so no error value
propagates to the host and the host-held form value stays unchanged. -/
theorem fileWidget_read_failure_logged_no_onChange (isMulti : Bool)
    (fileList : List FileWidget.ReadResult)
    (h : fileList.any FileWidget.readRejected = true) :
    (FileWidget.handleChange isMulti (some fileList)).countP Effect.isOnChange = 0
    ∧ (FileWidget.handleChange isMulti (some fileList)).countP Effect.isConsoleError = 1 := by
  obtain ⟨e, he⟩ := promiseAll_rejects fileList h
  simp [FileWidget.handleChange, he, List.countP_cons, Effect.isOnChange, Effect.isConsoleError]

/-- Witness for claim C3 at a one-element file list whose read rejects. -/
theorem fileWidget_read_failure_logged_no_onChange_witness :
    (FileWidget.handleChange true (some [Except.error "boom"])).countP Effect.isOnChange = 0
    ∧ (FileWidget.handleChange true (some [Except.error "boom"])).countP Effect.isConsoleError = 1 :=
  fileWidget_read_failure_logged_no_onChange true [Except.error "boom"] (by rfl)

/-- Claim C7 fails as stated: in single-file mode, when the one selected
file's read succeeds with the empty string as data URL, `onChange` receives
`null` rather than the first file's data-URL string — the handler computes
`dataUrls[0] || null` and the empty string is falsy. -/
theorem fileWidget_single_empty_url_counterexample :
    FileWidget.handleChange false (some [Except.ok ""]) =
      [Effect.callOnChange JSValue.null]
    ∧ JSValue.null ≠ JSValue.str "" :=
  ⟨rfl, by simp⟩

/-- Claim C7 amended: on a change event of the file widget in single-file
mode where all reads succeed, `onChange` receives the first file's data-URL
string when at least one file was selected and that string is non-empty; it
receives `null` when no file was selected or the first data URL is the empty
string (falsy). -/
theorem fileWidget_single_first_url_or_null (u : String) (rest : List String) :
    (u ≠ "" →
      FileWidget.handleChange false (some ((u :: rest).map Except.ok)) =
        [Effect.callOnChange (JSValue.str u)])
    ∧ (u = "" →
      FileWidget.handleChange false (some ((u :: rest).map Except.ok)) =
        [Effect.callOnChange JSValue.null])
    ∧ FileWidget.handleChange false (some ([] : List FileWidget.ReadResult)) =
        [Effect.callOnChange JSValue.null] := by
  have hp := promiseAll_map_ok (u :: rest)
  rw [List.map_cons] at hp
  refine ⟨fun hu => ?_, fun hu => ?_, rfl⟩
  · simp [FileWidget.handleChange, hp, jsOr, JSValue.truthy, hu]
  · subst hu
    simp [FileWidget.handleChange, hp, jsOr, JSValue.truthy]

/-- Witness for claim C7 amended at a single successful non-empty read. -/
theorem fileWidget_single_first_url_or_null_witness :
    FileWidget.handleChange false (some (["data:,x"].map Except.ok)) =
      [Effect.callOnChange (JSValue.str "data:,x")] :=
  (fileWidget_single_first_url_or_null "data:,x" []).1 (by decide)

/-- Claim C6: the file widget never notifies the host before all selected
files' asynchronous reads have resolved.  In the change-event trace, every
`onChange` effect sits at a position no earlier than the number of selected
files — that is, after every read-settled event — and at most one `onChange`
effect occurs per change event. -/
theorem fileWidget_onChange_after_all_reads (isMulti : Bool)
    (fileList : List FileWidget.ReadResult) (j : Nat) (v : JSValue)
    (h : (FileWidget.changeTrace isMulti fileList)[j]? =
      some (FileWidget.TraceEvent.effect (Effect.callOnChange v))) :
    fileList.length ≤ j
    ∧ (FileWidget.changeTrace isMulti fileList).countP
        FileWidget.TraceEvent.isOnChangeEvent ≤ 1 := by
  constructor
  · by_contra hlt
    push_neg at hlt
    rw [FileWidget.changeTrace,
      List.getElem?_append_left (by simpa using hlt), List.getElem?_map] at h
    cases hj : fileList[j]? with
    | none => rw [hj] at h; simp at h
    | some r => rw [hj] at h; simp at h
  · rw [FileWidget.changeTrace, List.countP_append]
    have h1 : (fileList.map FileWidget.TraceEvent.readSettled).countP
        FileWidget.TraceEvent.isOnChangeEvent = 0 := by
      refine List.countP_eq_zero.mpr ?_
      intro a ha
      obtain ⟨r, hmem, rfl⟩ := List.mem_map.mp ha
      simp [FileWidget.TraceEvent.isOnChangeEvent]
    have h2 : ((FileWidget.handleChange isMulti (some fileList)).map
        FileWidget.TraceEvent.effect).countP
        FileWidget.TraceEvent.isOnChangeEvent ≤ 1 := by
      have ha : ((FileWidget.handleChange isMulti (some fileList)).map
          FileWidget.TraceEvent.effect).countP
          FileWidget.TraceEvent.isOnChangeEvent ≤
          ((FileWidget.handleChange isMulti (some fileList)).map
          FileWidget.TraceEvent.effect).length :=
        List.countP_le_length FileWidget.TraceEvent.isOnChangeEvent
      rw [List.length_map] at ha
      exact le_trans ha (handleChange_length_le_one isMulti (some fileList))
    rw [h1, Nat.zero_add]
    exact h2

/-- Witness for claim C6 at a one-file change event whose trace carries the
`onChange` effect at position one, after the single read-settled event. -/
theorem fileWidget_onChange_after_all_reads_witness :
    List.length [Except.ok (ε := String) "a"] ≤ 1
    ∧ (FileWidget.changeTrace true [Except.ok "a"]).countP
        FileWidget.TraceEvent.isOnChangeEvent ≤ 1 :=
  fileWidget_onChange_after_all_reads true [Except.ok "a"] 1
    (JSValue.arr [JSValue.str "a"]) (by rfl)

/-- Concrete host props for the file widget, used to exhibit its hidden
state dependence. -/
def sampleFileProps : FileWidgetProps :=
  { id := "file-0", required := false, disabled := false, readonly := false,
    schemaTypeIsArray := false, optionsMultiple := false, accept := none }

/-- The number of children of the root element of a markup tree. -/
def Html.rootChildCount : Html → Nat
  | .element _ _ children => children.length
  | .textNode _ => 0

/-- Claim C5 fails as stated: `FileWidget` is not stateless.  It holds
internal `isLoading` state (`useState`), and two renders given equal
host-supplied props but different internal state produce different markup —
while loading, a progress indicator is added and the input is disabled. -/
theorem fileWidget_not_stateless_counterexample :
    FileWidget.render sampleFileProps false ≠ FileWidget.render sampleFileProps true := by
  intro h
  have hc := congrArg Html.rootChildCount h
  simp [FileWidget.render, sampleFileProps, Html.rootChildCount] at hc

/-- Claim C5 amended: not every component is stateless — `FileWidget` holds
internal `isLoading` state on which its markup depends: for every
host-supplied props value, its markup in the idle state differs from its
markup in the loading state (the other components render as functions of
their props alone). -/
theorem fileWidget_render_depends_on_isLoading (p : FileWidgetProps) :
    FileWidget.render p false ≠ FileWidget.render p true := by
  intro h
  have hc := congrArg Html.rootChildCount h
  simp [FileWidget.render, Html.rootChildCount] at hc

/-- Claim C2: for every change event in `TextareaWidget` and in
`BaseInputTemplate`, when `options.maxByteLength` is set and truthy and the
new value's UTF-8 byte length exceeds it, `onChange` is not invoked; in every
other case `onChange` is invoked with the new value, `BaseInputTemplate`
substituting `options.emptyValue` when the new value is the empty string. -/
theorem maxByteLength_guard (m : Nat) (mb : Option Nat) (v : String) (ev : JSValue) :
    (mb = some m → m ≠ 0 → utf8ByteLength v > m →
      TextareaWidget.handleChange mb v = []
      ∧ BaseInputTemplate.onChangeHandler mb ev v = [])
    ∧ (mb = none →
      TextareaWidget.handleChange mb v = [Effect.callOnChange (JSValue.str v)]
      ∧ BaseInputTemplate.onChangeHandler mb ev v =
          [Effect.callOnChange (if v = "" then ev else JSValue.str v)])
    ∧ (mb = some m → (m = 0 ∨ utf8ByteLength v ≤ m) →
      TextareaWidget.handleChange mb v = [Effect.callOnChange (JSValue.str v)]
      ∧ BaseInputTemplate.onChangeHandler mb ev v =
          [Effect.callOnChange (if v = "" then ev else JSValue.str v)]) := by
  refine ⟨fun hmb hm hlen => ?_, fun hmb => ?_, fun hmb hle => ?_⟩
  · subst hmb
    simp [TextareaWidget.handleChange, BaseInputTemplate.onChangeHandler, hm, hlen]
  · subst hmb
    simp [TextareaWidget.handleChange, BaseInputTemplate.onChangeHandler]
  · subst hmb
    rcases hle with hm | hlen
    · subst hm
      simp [TextareaWidget.handleChange, BaseInputTemplate.onChangeHandler]
    · simp [TextareaWidget.handleChange, BaseInputTemplate.onChangeHandler,
        Nat.not_lt.mpr hlen]

/-- Witness for claim C2: with a limit of three bytes, a four-byte value is
dropped by both handlers. -/
theorem maxByteLength_guard_witness :
    TextareaWidget.handleChange (some 3) "abcd" = []
    ∧ BaseInputTemplate.onChangeHandler (some 3) JSValue.undef "abcd" = [] :=
  (maxByteLength_guard 3 (some 3) "abcd" JSValue.undef).1 rfl (by decide) (by decide)

/-- Claim C4 fails as stated: on a single-select change whose index string is
empty, `SelectWidget` passes the configured `emptyValue` to `onChange`
directly, while the host-library mapping `enumOptionsValueForIndex` applied
to the same arguments converts the empty string to index `0` and returns the
first option's value. -/
theorem select_empty_index_counterexample :
    SelectWidget.valueForSingleIndex (some [⟨"a", JSValue.str "A"⟩]) JSValue.undef "" =
      Except.ok JSValue.undef
    ∧ enumOptionsValueForIndex "" [⟨"a", JSValue.str "A"⟩] JSValue.undef = JSValue.str "A"
    ∧ JSValue.undef ≠ JSValue.str "A" :=
  ⟨rfl, rfl, by simp⟩

/-- Claim C4 amended: for every selection index string that is non-empty and
denotes an in-range option position, the value `SelectWidget` passes to
`onChange` equals the host-library mapping `enumOptionsValueForIndex` with
the configured `emptyValue` — in the single-select branch for every option
list, including lists whose option values are objects, and in the
multiple-select branch for every enumerated-object option list (for
non-object lists that branch invokes `enumOptionsValueForIndex` itself).
When the single-select index string is empty the widget passes the
configured `emptyValue` directly instead of the host-library mapping's
result.  `BaseInputTemplate` performs its empty-value handling inline:
`onChange` receives `options.emptyValue` exactly when the new value is the
empty string. -/
theorem select_delegates_to_enumOptionsValueForIndex
    (opts : List EnumOption) (emptyVal : JSValue) (index : String) (i : Nat)
    (hne : index ≠ "") (hidx : jsStringToNat index = some i) (hlt : i < opts.length) :
    SelectWidget.valueForSingleIndex (some opts) emptyVal index =
      Except.ok (enumOptionsValueForIndex index opts emptyVal)
    ∧ (SelectWidget.isEnumeratedObject (some opts) = true →
      SelectWidget.valueForMultiIndex (some opts) emptyVal index =
        Except.ok (enumOptionsValueForIndex index opts emptyVal))
    ∧ BaseInputTemplate.onChangeHandler none emptyVal "" = [Effect.callOnChange emptyVal] := by
  have hget : opts[i]? = some (opts.get ⟨i, hlt⟩) := List.getElem?_eq_getElem hlt
  have hvfi : enumOptionsValueForIndex index opts emptyVal = (opts.get ⟨i, hlt⟩).value := by
    simp only [enumOptionsValueForIndex, hidx, hget]
  refine ⟨?_, fun hobj => ?_, rfl⟩
  · rw [SelectWidget.valueForSingleIndex]
    cases hB : SelectWidget.isEnumeratedObject (some opts) with
    | true => simp [hne, hB, hidx, hget, hvfi]
    | false => simp [hne, hB]
  · rw [SelectWidget.valueForMultiIndex]
    simp [hobj, hidx, hget, hvfi]

/-- Witness for claim C4 amended at index string "1" of a two-element
object-valued option list. -/
theorem select_delegates_to_enumOptionsValueForIndex_witness :
    SelectWidget.valueForSingleIndex
        (some [⟨"a", JSValue.obj "oA"⟩, ⟨"b", JSValue.obj "oB"⟩]) JSValue.undef "1" =
      Except.ok (enumOptionsValueForIndex "1"
        [⟨"a", JSValue.obj "oA"⟩, ⟨"b", JSValue.obj "oB"⟩] JSValue.undef)
    ∧ (SelectWidget.isEnumeratedObject
        (some [⟨"a", JSValue.obj "oA"⟩, ⟨"b", JSValue.obj "oB"⟩]) = true →
      SelectWidget.valueForMultiIndex
          (some [⟨"a", JSValue.obj "oA"⟩, ⟨"b", JSValue.obj "oB"⟩]) JSValue.undef "1" =
        Except.ok (enumOptionsValueForIndex "1"
          [⟨"a", JSValue.obj "oA"⟩, ⟨"b", JSValue.obj "oB"⟩] JSValue.undef))
    ∧ BaseInputTemplate.onChangeHandler none JSValue.undef "" =
        [Effect.callOnChange JSValue.undef] :=
  select_delegates_to_enumOptionsValueForIndex
    [⟨"a", JSValue.obj "oA"⟩, ⟨"b", JSValue.obj "oB"⟩] JSValue.undef "1" 1
    (by decide) (by rfl) (by decide)

/-- Claim C8: for every component and every event, the only externally
observable effects are invocations of the host-supplied callbacks and
console logging on file-read failure (the effect type of the embedding has
no network, file-system or process-level constructor, mirroring that no such
interface is accessed), and every handler invokes only the callback
corresponding to its event — change handlers only `onChange` (the file
widget possibly logging instead), focus handlers only `onFocus`, blur
handlers only `onBlur`. -/
theorem handlers_only_matching_callbacks (isMulti hasFocusCb hasBlurCb multiple : Bool)
    (files : Option (List FileWidget.ReadResult)) (id : String)
    (fileVals : Option (List JSValue)) (v : String) (mb : Option Nat)
    (ev emptyVal : JSValue) (enumOptions : Option (List EnumOption))
    (eventValue : String) (selectedOptionValues : List String) :
    (FileWidget.handleChange isMulti files).all
        (fun e => e.isOnChange || e.isConsoleError) = true
    ∧ (FileWidget.handleFocus hasFocusCb id fileVals).all Effect.isOnFocus = true
    ∧ (FileWidget.handleBlur hasBlurCb id fileVals).all Effect.isOnBlur = true
    ∧ (TextareaWidget.handleChange mb v).all Effect.isOnChange = true
    ∧ (TextareaWidget.handleFocus hasFocusCb id v).all Effect.isOnFocus = true
    ∧ (TextareaWidget.handleBlur hasBlurCb id v).all Effect.isOnBlur = true
    ∧ (BaseInputTemplate.onChangeHandler mb ev v).all Effect.isOnChange = true
    ∧ (BaseInputTemplate.onBlurHandler hasBlurCb id v).all Effect.isOnBlur = true
    ∧ (BaseInputTemplate.onFocusHandler hasFocusCb id v).all Effect.isOnFocus = true
    ∧ allEffectsOk Effect.isOnChange
        (SelectWidget.handleChange multiple enumOptions emptyVal eventValue
          selectedOptionValues) = true
    ∧ (SelectWidget.onBlurHandler hasBlurCb id v).all Effect.isOnBlur = true
    ∧ (SelectWidget.onFocusHandler hasFocusCb id v).all Effect.isOnFocus = true := by
  refine ⟨?_, ?_, ?_, ?_, ?_, ?_, ?_, ?_, ?_, ?_, ?_, ?_⟩
  · cases files with
    | none => rfl
    | some fileList =>
      cases hp : FileWidget.promiseAll fileList with
      | ok dataUrls =>
        cases isMulti <;>
          simp [FileWidget.handleChange, hp, Effect.isOnChange, Effect.isConsoleError]
      | error e =>
        simp [FileWidget.handleChange, hp, Effect.isOnChange, Effect.isConsoleError]
  · cases hasFocusCb <;> simp [FileWidget.handleFocus, Effect.isOnFocus]
  · cases hasBlurCb <;> simp [FileWidget.handleBlur, Effect.isOnBlur]
  · cases mb with
    | none => rfl
    | some m =>
      rw [TextareaWidget.handleChange]
      split <;> simp [Effect.isOnChange]
  · cases hasFocusCb <;> simp [TextareaWidget.handleFocus, Effect.isOnFocus]
  · cases hasBlurCb <;> simp [TextareaWidget.handleBlur, Effect.isOnBlur]
  · cases mb with
    | none => simp [BaseInputTemplate.onChangeHandler, Effect.isOnChange]
    | some m =>
      rw [BaseInputTemplate.onChangeHandler]
      split <;> simp [Effect.isOnChange]
  · cases hasBlurCb <;> simp [BaseInputTemplate.onBlurHandler, Effect.isOnBlur]
  · cases hasFocusCb <;> simp [BaseInputTemplate.onFocusHandler, Effect.isOnFocus]
  · cases multiple with
    | true =>
      have hdef : SelectWidget.handleChange true enumOptions emptyVal eventValue
          selectedOptionValues =
          (selectedOptionValues.mapM
            (SelectWidget.valueForMultiIndex enumOptions emptyVal)).map
            (fun vals => [Effect.callOnChange (.arr vals)]) := rfl
      rw [hdef]
      cases hm : selectedOptionValues.mapM
          (SelectWidget.valueForMultiIndex enumOptions emptyVal) with
      | ok vals => simp [allEffectsOk, Except.map, Effect.isOnChange]
      | error e => simp [allEffectsOk, Except.map]
    | false =>
      cases hs : SelectWidget.valueForSingleIndex enumOptions emptyVal eventValue with
      | ok val =>
        simp [SelectWidget.handleChange, allEffectsOk, hs, Except.map, Effect.isOnChange]
      | error e =>
        simp [SelectWidget.handleChange, allEffectsOk, hs, Except.map]
  · cases hasBlurCb <;> simp [SelectWidget.onBlurHandler, Effect.isOnBlur]
  · cases hasFocusCb <;> simp [SelectWidget.onFocusHandler, Effect.isOnFocus]

/-- Claim C9: the `TitleField` heading text equals the UI-schema override
`uiOptions.title` whenever that override is supplied and truthy, and equals
the host-supplied `title` prop otherwise (override absent, or supplied but
falsy). -/
theorem titleField_heading_override_or_title (t title : String) :
    (t ≠ "" → TitleField.headingText (some t) title = t)
    ∧ TitleField.headingText none title = title
    ∧ TitleField.headingText (some "") title = title := by
  refine ⟨fun h => ?_, rfl, rfl⟩
  simp [TitleField.headingText, h]

/-- Witness for claim C9 at a truthy override. -/
theorem titleField_heading_override_or_title_witness :
    TitleField.headingText (some "Custom") "Original" = "Custom" :=
  (titleField_heading_override_or_title "Custom" "Original").1 (by decide)

end DaisyUI
